import Mathlib

/-!
Verification of the BMFMC/BMFIA core of the `queens` repository.

The definitions below are shallow embeddings of the Python source in
`src/pqueens/models/bmfmc_model.py` and `src/pqueens/iterators/bmfia_iterator.py`.
Machine floats are modelled as real numbers (`ℝ`); numpy arrays appear as
functions out of `Fin n` or as lists of rows; exceptions are modelled with
`Except`/`Option` result types carrying the exception class that the Python
code raises.
-/

namespace Queens

/-! ### Scalar Gaussian densities

`scipy.stats.norm.pdf(x, loc, scale)` evaluates the standard normal density at
`(x - loc)/scale` and divides by `scale`. -/

/-- The standard normal probability density, as scipy's `norm.pdf` computes it. -/
noncomputable def stdNormPdf (z : ℝ) : ℝ :=
  Real.exp (-(z ^ 2) / 2) / Real.sqrt (2 * Real.pi)

/-- `scipy.stats.norm.pdf(x, loc=loc, scale=scale)`. -/
noncomputable def scipyNormPdf (x loc scale : ℝ) : ℝ :=
  stdNormPdf ((x - loc) / scale) / scale

/-- The univariate Gaussian density in the textbook form used by the spec's
sentence: `N(s; mu, sigma) = 1/(sigma*sqrt(2*pi)) * exp(-(s-mu)^2/(2*sigma^2))`. -/
noncomputable def gaussDensitySpec (s mu sigma : ℝ) : ℝ :=
  1 / (sigma * Real.sqrt (2 * Real.pi)) * Real.exp (-((s - mu) ^ 2) / (2 * sigma ^ 2))

theorem scipyNormPdf_eq_spec (x mu sigma : ℝ) (h : sigma ≠ 0) :
    scipyNormPdf x mu sigma = gaussDensitySpec x mu sigma := by
  unfold scipyNormPdf stdNormPdf gaussDensitySpec
  rw [div_pow]
  field_simp
  ring_nf

/-! ### `BMFMCModel._calculate_p_yhf_mean`

```python
standard_deviation = np.sqrt(self.var_y_mc)
pdf_mat = st.norm.pdf(self.y_pdf_support, loc=self.m_f_mc, scale=standard_deviation)
pyhf_mean_vec = np.sum(pdf_mat, axis=0)
self.p_yhf_mean = 1 / self.m_f_mc.size * pyhf_mean_vec
```

`m_f_mc` and `var_y_mc` hold one entry per Monte-Carlo sample (`N` of them),
`y_pdf_support` one entry per support point; broadcasting makes `pdf_mat` an
`N × S` matrix. -/

/-- The broadcast matrix `st.norm.pdf(y_pdf_support, loc=m_f_mc, scale=sqrt(var_y_mc))`. -/
noncomputable def pdf_mat {N S : ℕ} (m_f_mc var_y_mc : Fin N → ℝ)
    (y_pdf_support : Fin S → ℝ) : Fin N → Fin S → ℝ :=
  fun i s => scipyNormPdf (y_pdf_support s) (m_f_mc i) (Real.sqrt (var_y_mc i))

/-- `p_yhf_mean` as `_calculate_p_yhf_mean` computes it: column sums of
`pdf_mat` scaled by `1 / m_f_mc.size`. -/
noncomputable def p_yhf_mean {N S : ℕ} (m_f_mc var_y_mc : Fin N → ℝ)
    (y_pdf_support : Fin S → ℝ) : Fin S → ℝ :=
  fun s => 1 / (N : ℝ) * ∑ i, pdf_mat m_f_mc var_y_mc y_pdf_support i s

/-- C1: for every support point `s` of `y_pdf_support`, the posterior mean
density `p_yhf_mean(s)` equals the arithmetic mean over all `N` Monte-Carlo
samples of the univariate Gaussian density at `s` with mean `m_f_mc[i]` and
standard deviation `sqrt(var_y_mc[i])`. -/
theorem p_yhf_mean_is_mc_average_of_gaussians {N S : ℕ}
    (m_f_mc var_y_mc : Fin N → ℝ) (y_pdf_support : Fin S → ℝ)
    (hv : ∀ i, 0 < var_y_mc i) (s : Fin S) :
    p_yhf_mean m_f_mc var_y_mc y_pdf_support s =
      1 / (N : ℝ) *
        ∑ i, gaussDensitySpec (y_pdf_support s) (m_f_mc i) (Real.sqrt (var_y_mc i)) := by
  unfold p_yhf_mean pdf_mat
  congr 1
  refine Finset.sum_congr rfl fun i _ => ?_
  exact scipyNormPdf_eq_spec _ _ _ (ne_of_gt (Real.sqrt_pos.mpr (hv i)))

/-- Witness for C1 at a concrete input: two MC samples with means `0, 1` and
variances `1, 4`, one support point `2`. -/
theorem p_yhf_mean_is_mc_average_of_gaussians_witness :
    (∀ i : Fin 2, 0 < (![1, 4] : Fin 2 → ℝ) i) ∧
      p_yhf_mean (![0, 1] : Fin 2 → ℝ) ![1, 4] (![2] : Fin 1 → ℝ) 0 =
        1 / (2 : ℝ) * ∑ i, gaussDensitySpec ((![2] : Fin 1 → ℝ) 0) (![0, 1] i)
          (Real.sqrt (![1, 4] i)) := by
  have hv : ∀ i : Fin 2, 0 < (![1, 4] : Fin 2 → ℝ) i := by
    intro i
    fin_cases i <;> norm_num
  refine ⟨hv, ?_⟩
  have h := p_yhf_mean_is_mc_average_of_gaussians (![0, 1] : Fin 2 → ℝ) ![1, 4]
    (![2] : Fin 1 → ℝ) hv 0
  simpa using h

/-! ### `BMFMCModel._calculate_p_yhf_var`

```python
for num1, (mean1, var1) in enumerate(zip(f_mean_pred, yhf_var_pred)):
    for num2, (mean2, var2) in enumerate(zip(f_mean_pred[num1+1:], yhf_var_pred[num1+1:])):
        num2 = num1 + num2
        covariance = k_post[num1, num2]
        mean_vec = np.array([mean1, mean2])
        diff = points - mean_vec.T
        det_sigma = var1 * var2 - covariance ** 2
        if det_sigma < 0:
            det_sigma = 1e-6
            covariance = 0.95 * covariance
        inv_sigma = 1 / det_sigma * np.array([[var2, -covariance], [-covariance, var1]])
        a = np.dot(diff, inv_sigma)
        b = np.einsum('ij,ij->i', a, diff)
        c = np.sqrt(4 * np.pi ** 2 * det_sigma)
        args = -0.5 * b + np.log(1 / c)
        args[args > 40] = 40
        yhf_pdf_grid += np.exp(args)
        i = i + 1
        self.p_yhf_var = 1 / (i - 1) * yhf_pdf_grid - 0.9995 * self.p_yhf_mean ** 2
```

The enumeration offset of the inner loop makes `mean2`/`var2` the marginal of
sample `num1 + 1 + num2` while the rebinding `num2 = num1 + num2` makes the
covariance lookup read `k_post[num1, num1 + num2]`, one column short of the
second marginal's index. -/

/-- The clipped Gaussian exponent argument `-0.5*b + log(1/c)` of one pair's
bivariate density at the 2-D point `(s, s)`, for an already clamped determinant
`det_sigma`; the matrix products for `a = diff @ inv_sigma` and
`b = einsum('ij,ij->i', a, diff)` are spelled out entrywise. -/
noncomputable def biv_args (mean1 mean2 var1 var2 covariance det_sigma s : ℝ) : ℝ :=
  let d1 := s - mean1
  let d2 := s - mean2
  let a1 := d1 * (1 / det_sigma * var2) + d2 * (1 / det_sigma * -covariance)
  let a2 := d1 * (1 / det_sigma * -covariance) + d2 * (1 / det_sigma * var1)
  let b := a1 * d1 + a2 * d2
  let c := Real.sqrt (4 * Real.pi ^ 2 * det_sigma);
  -0.5 * b + Real.log (1 / c)

/-- One pair's contribution `exp(args)` after the clip `args[args > 40] = 40`,
for an already clamped determinant. -/
noncomputable def biv_density_core (mean1 mean2 var1 var2 covariance det_sigma s : ℝ) : ℝ :=
  Real.exp (min (biv_args mean1 mean2 var1 var2 covariance det_sigma s) 40)

/-- One pair's bivariate-density contribution at `(s, s)` including the
negative-determinant safeguard: if `var1*var2 - covariance^2 < 0` the
determinant is replaced by `1e-6` and the covariance is damped by `0.95`. -/
noncomputable def biv_density (mean1 mean2 var1 var2 covariance s : ℝ) : ℝ :=
  if var1 * var2 - covariance ^ 2 < 0 then
    biv_density_core mean1 mean2 var1 var2 (0.95 * covariance) 1e-6 s
  else
    biv_density_core mean1 mean2 var1 var2 covariance (var1 * var2 - covariance ^ 2) s

/-- The final value of the pair counter minus one: the number of iterations of
the doubly nested loop, `sum over num1 < M of (M - (num1+1))`. -/
def num_pairs (M : ℕ) : ℕ := ∑ num1 ∈ Finset.range M, (M - (num1 + 1))

/-- The accumulated `yhf_pdf_grid` at support point `s` as the nested loop
computes it: the second marginal of the inner iteration is sample
`num1 + 1 + num2`, the covariance is read at `k_post[num1, num1 + num2]`. -/
noncomputable def yhf_pdf_grid (M : ℕ) (m v : ℕ → ℝ) (k_post : ℕ → ℕ → ℝ) (s : ℝ) : ℝ :=
  ∑ num1 ∈ Finset.range M, ∑ num2 ∈ Finset.range (M - (num1 + 1)),
    biv_density (m num1) (m (num1 + 1 + num2)) (v num1) (v (num1 + 1 + num2))
      (k_post num1 (num1 + num2)) s

/-- `p_yhf_var` at support point `s` as `_calculate_p_yhf_var` leaves it after
the loop: `1/(i-1) * yhf_pdf_grid - 0.9995 * p_yhf_mean^2`. -/
noncomputable def p_yhf_var (M : ℕ) (m v : ℕ → ℝ) (k_post : ℕ → ℕ → ℝ)
    (p_mean_s s : ℝ) : ℝ :=
  1 / (num_pairs M : ℝ) * yhf_pdf_grid M m v k_post s - 0.9995 * p_mean_s ^ 2

/-- The claim's formula for `p_yhf_var(s)`: identical pairwise sum, but each
unordered pair `(i, j)`, `i < j`, contributes the bivariate density built from
its own posterior covariance `k_post[i, j]`. -/
noncomputable def p_yhf_var_claim (M : ℕ) (m v : ℕ → ℝ) (k_post : ℕ → ℕ → ℝ)
    (p_mean_s s : ℝ) : ℝ :=
  1 / (num_pairs M : ℝ) *
      (∑ num1 ∈ Finset.range M, ∑ num2 ∈ Finset.range (M - (num1 + 1)),
        biv_density (m num1) (m (num1 + 1 + num2)) (v num1) (v (num1 + 1 + num2))
          (k_post num1 (num1 + 1 + num2)) s) -
    0.9995 * p_mean_s ^ 2

/-- A concrete posterior covariance matrix over two MC samples: unit variances
are stored in `v`, the off-diagonal covariance entry `k_post[0, 1]` is `1/2`,
every other entry (in particular `k_post[0, 0]`) is `0`. -/
noncomputable def k_post_ex (i j : ℕ) : ℝ := if i = 0 ∧ j = 1 then 1 / 2 else 0

/-- C3: when the determinant `var1*var2 - covariance^2` is negative, the pair's
density is computed with the determinant clamped to `1e-6` and the covariance
damped by `0.95`, the exponent argument is clipped at `40`, and the resulting
contribution is non-negative (indeed positive) and bounded by `exp 40`, hence
finite. -/
theorem biv_density_negative_det_clamped (mean1 mean2 var1 var2 covariance s : ℝ)
    (h : var1 * var2 - covariance ^ 2 < 0) :
    biv_density mean1 mean2 var1 var2 covariance s =
        biv_density_core mean1 mean2 var1 var2 (0.95 * covariance) 1e-6 s ∧
      0 ≤ biv_density mean1 mean2 var1 var2 covariance s ∧
      biv_density mean1 mean2 var1 var2 covariance s ≤ Real.exp 40 := by
  have he : biv_density mean1 mean2 var1 var2 covariance s =
      biv_density_core mean1 mean2 var1 var2 (0.95 * covariance) 1e-6 s := by
    unfold biv_density
    rw [if_pos h]
  refine ⟨he, ?_, ?_⟩
  · rw [he]
    exact le_of_lt (Real.exp_pos _)
  · rw [he]
    unfold biv_density_core
    exact Real.exp_le_exp.mpr (min_le_right _ _)

/-- Witness for C3 at unit variances and covariance `2`: the determinant
`1*1 - 2^2 = -3` is negative. -/
theorem biv_density_negative_det_clamped_witness :
    ((1 : ℝ) * 1 - 2 ^ 2 < 0) ∧
      (biv_density 0 0 1 1 2 0 = biv_density_core 0 0 1 1 (0.95 * 2) 1e-6 0 ∧
        0 ≤ biv_density 0 0 1 1 2 0 ∧ biv_density 0 0 1 1 2 0 ≤ Real.exp 40) :=
  ⟨by norm_num, biv_density_negative_det_clamped 0 0 1 1 2 0 (by norm_num)⟩

/-- At centred means and support point `0`, the quadratic form vanishes and the
pair's density reduces to `1 / sqrt(4*pi^2*det)`, provided the determinant is
non-negative and that square root is at least `1` (so the exponent clip at `40`
is inactive). -/
theorem biv_density_at_mean (var1 var2 cov : ℝ) (hdet : ¬var1 * var2 - cov ^ 2 < 0)
    (hge : 1 ≤ Real.sqrt (4 * Real.pi ^ 2 * (var1 * var2 - cov ^ 2))) :
    biv_density 0 0 var1 var2 cov 0 =
      1 / Real.sqrt (4 * Real.pi ^ 2 * (var1 * var2 - cov ^ 2)) := by
  have hc : (0 : ℝ) < Real.sqrt (4 * Real.pi ^ 2 * (var1 * var2 - cov ^ 2)) :=
    lt_of_lt_of_le one_pos hge
  have hlog :
      Real.log (1 / Real.sqrt (4 * Real.pi ^ 2 * (var1 * var2 - cov ^ 2))) ≤ 40 := by
    refine le_trans (Real.log_nonpos (by positivity) ?_) (by norm_num)
    rw [div_le_one hc]
    exact hge
  unfold biv_density biv_density_core biv_args
  rw [if_neg hdet]
  simp only [sub_self, zero_mul, mul_zero, add_zero, zero_add]
  rw [min_eq_left hlog]
  exact Real.exp_log (by positivity)

/-- C2 (evaluation of the code at the failing input): over `M = 2` MC samples
with zero predictive means, unit predictive variances and posterior covariance
matrix `k_post_ex` (off-diagonal entry `k_post[0,1] = 1/2`), the loop of
`_calculate_p_yhf_var` reads the covariance of the single pair `(0, 1)` at the
rebound index `k_post[0, 0] = 0` and yields `1/(2*pi)` at support point `0`,
while the claim's formula, which uses the pair's own covariance
`k_post[0, 1] = 1/2`, yields `1/(sqrt 3 * pi)`; the two values differ. -/
theorem p_yhf_var_covariance_off_by_one :
    p_yhf_var 2 (fun _ => 0) (fun _ => 1) k_post_ex 0 0 = 1 / (2 * Real.pi) ∧
      p_yhf_var_claim 2 (fun _ => 0) (fun _ => 1) k_post_ex 0 0 =
        1 / (Real.sqrt 3 * Real.pi) ∧
      p_yhf_var 2 (fun _ => 0) (fun _ => 1) k_post_ex 0 0 ≠
        p_yhf_var_claim 2 (fun _ => 0) (fun _ => 1) k_post_ex 0 0 := by
  have hk00 : k_post_ex 0 0 = 0 := by simp [k_post_ex]
  have hk01 : k_post_ex 0 1 = 1 / 2 := by simp [k_post_ex]
  have h2pi : Real.sqrt (4 * Real.pi ^ 2 * ((1 : ℝ) * 1 - 0 ^ 2)) = 2 * Real.pi := by
    rw [show 4 * Real.pi ^ 2 * ((1 : ℝ) * 1 - 0 ^ 2) = (2 * Real.pi) ^ 2 by ring]
    exact Real.sqrt_sq (by positivity)
  have hs3 : Real.sqrt (4 * Real.pi ^ 2 * ((1 : ℝ) * 1 - (1 / 2) ^ 2)) =
      Real.sqrt 3 * Real.pi := by
    rw [show 4 * Real.pi ^ 2 * ((1 : ℝ) * 1 - (1 / 2) ^ 2) = 3 * Real.pi ^ 2 by ring,
      Real.sqrt_mul (by norm_num : (0 : ℝ) ≤ 3), Real.sqrt_sq Real.pi_nonneg]
  have hsq3_one : (1 : ℝ) ≤ Real.sqrt 3 := Real.one_le_sqrt.mpr (by norm_num)
  have hb1 : biv_density 0 0 1 1 0 0 = 1 / (2 * Real.pi) := by
    have h := biv_density_at_mean 1 1 0 (by norm_num)
      (by rw [h2pi]; nlinarith [Real.pi_gt_three])
    rwa [h2pi] at h
  have hb2 : biv_density 0 0 1 1 (1 / 2) 0 = 1 / (Real.sqrt 3 * Real.pi) := by
    have h := biv_density_at_mean 1 1 (1 / 2) (by norm_num)
      (by rw [hs3]; nlinarith [Real.pi_gt_three, hsq3_one])
    rwa [hs3] at h
  have hnp : ((num_pairs 2 : ℕ) : ℝ) = 1 := by
    norm_num [num_pairs, Finset.sum_range_succ]
  have hgrid : yhf_pdf_grid 2 (fun _ => 0) (fun _ => 1) k_post_ex 0 =
      biv_density 0 0 1 1 (k_post_ex 0 0) 0 := by
    unfold yhf_pdf_grid
    rw [Finset.sum_range_succ, Finset.sum_range_succ, Finset.sum_range_zero]
    norm_num
  have hgrid' : (∑ num1 ∈ Finset.range 2, ∑ num2 ∈ Finset.range (2 - (num1 + 1)),
      biv_density ((fun _ => (0 : ℝ)) num1) ((fun _ => (0 : ℝ)) (num1 + 1 + num2))
        ((fun _ => (1 : ℝ)) num1) ((fun _ => (1 : ℝ)) (num1 + 1 + num2))
        (k_post_ex num1 (num1 + 1 + num2)) 0) =
      biv_density 0 0 1 1 (k_post_ex 0 1) 0 := by
    rw [Finset.sum_range_succ, Finset.sum_range_succ, Finset.sum_range_zero]
    norm_num
  have hcode : p_yhf_var 2 (fun _ => 0) (fun _ => 1) k_post_ex 0 0 = 1 / (2 * Real.pi) := by
    unfold p_yhf_var
    rw [hnp, hgrid, hk00, hb1]
    norm_num
  have hclaim : p_yhf_var_claim 2 (fun _ => 0) (fun _ => 1) k_post_ex 0 0 =
      1 / (Real.sqrt 3 * Real.pi) := by
    unfold p_yhf_var_claim
    rw [hnp, hgrid', hk01, hb2]
    norm_num
  refine ⟨hcode, hclaim, ?_⟩
  rw [hcode, hclaim]
  have hlt : Real.sqrt 3 * Real.pi < 2 * Real.pi := by
    have h3 : Real.sqrt 3 < 2 := (Real.sqrt_lt' (by norm_num)).mpr (by norm_num)
    exact mul_lt_mul_of_pos_right h3 Real.pi_pos
  have hpos : (0 : ℝ) < Real.sqrt 3 * Real.pi := by positivity
  exact ne_of_lt (one_div_lt_one_div_of_lt hpos hlt)

/-! ### `_linear_scale_a_to_b`

```python
min_b = np.min(data_b)
max_b = np.max(data_b)
scaled_a = min_b + (data_a - np.min(data_a)) * (
    (max_b - min_b) / (np.max(data_a) - np.min(data_a))
)
```

`np.min`/`np.max` require a non-empty array, so the vectors are indexed by
`Fin (n+1)`. -/

/-- `np.min` over a non-empty vector. -/
def np_min {α : Type*} [LinearOrder α] {n : ℕ} (x : Fin (n + 1) → α) : α :=
  Finset.univ.inf' Finset.univ_nonempty x

/-- `np.max` over a non-empty vector. -/
def np_max {α : Type*} [LinearOrder α] {n : ℕ} (x : Fin (n + 1) → α) : α :=
  Finset.univ.sup' Finset.univ_nonempty x

/-- `_linear_scale_a_to_b(data_a, data_b)`. -/
def linear_scale_a_to_b {α : Type*} [LinearOrderedField α] {n m : ℕ}
    (data_a : Fin (n + 1) → α) (data_b : Fin (m + 1) → α) : Fin (n + 1) → α :=
  fun i =>
    np_min data_b + (data_a i - np_min data_a) *
      ((np_max data_b - np_min data_b) / (np_max data_a - np_min data_a))

theorem np_min_le {α : Type*} [LinearOrder α] {n : ℕ} (x : Fin (n + 1) → α)
    (i : Fin (n + 1)) : np_min x ≤ x i :=
  Finset.inf'_le _ (Finset.mem_univ i)

theorem le_np_max {α : Type*} [LinearOrder α] {n : ℕ} (x : Fin (n + 1) → α)
    (i : Fin (n + 1)) : x i ≤ np_max x :=
  Finset.le_sup' _ (Finset.mem_univ i)

theorem np_min_le_np_max {α : Type*} [LinearOrder α] {n : ℕ} (x : Fin (n + 1) → α) :
    np_min x ≤ np_max x :=
  le_trans (np_min_le x 0) (le_np_max x 0)

/-- C10: `_linear_scale_a_to_b` is the affine map
`x ↦ min(b) + (x - min(a)) * (max(b) - min(b)) / (max(a) - min(a))`; whenever
`max(a) ≠ min(a)` it sends the minimum of `data_a` exactly to `min(b)`, the
maximum exactly to `max(b)`, and every output into the numeric range
`[min(b), max(b)]` of `data_b`.  (When `max(a) = min(a)` the divisor
`max(a) - min(a)` of the affine map is zero, so the operation divides by
zero and is not well defined.) -/
theorem linear_scale_a_to_b_range {n m : ℕ} (data_a : Fin (n + 1) → ℚ)
    (data_b : Fin (m + 1) → ℚ) (h : np_max data_a ≠ np_min data_a) :
    (∀ i, linear_scale_a_to_b data_a data_b i =
        np_min data_b + (data_a i - np_min data_a) *
          ((np_max data_b - np_min data_b) / (np_max data_a - np_min data_a))) ∧
      (∀ i, data_a i = np_min data_a →
        linear_scale_a_to_b data_a data_b i = np_min data_b) ∧
      (∀ i, data_a i = np_max data_a →
        linear_scale_a_to_b data_a data_b i = np_max data_b) ∧
      (∀ i, np_min data_b ≤ linear_scale_a_to_b data_a data_b i ∧
        linear_scale_a_to_b data_a data_b i ≤ np_max data_b) := by
  have hlt : np_min data_a < np_max data_a :=
    lt_of_le_of_ne (np_min_le_np_max data_a) (Ne.symm h)
  have hda : np_max data_a - np_min data_a ≠ 0 := sub_ne_zero.mpr h
  have hdb : np_min data_b ≤ np_max data_b := np_min_le_np_max data_b
  have hslope : (0 : ℚ) ≤ (np_max data_b - np_min data_b) /
      (np_max data_a - np_min data_a) :=
    div_nonneg (sub_nonneg.mpr hdb) (le_of_lt (sub_pos.mpr hlt))
  refine ⟨fun i => rfl, fun i hi => ?_, fun i hi => ?_, fun i => ⟨?_, ?_⟩⟩
  · unfold linear_scale_a_to_b
    rw [hi, sub_self, zero_mul, add_zero]
  · unfold linear_scale_a_to_b
    rw [hi]
    field_simp
  · unfold linear_scale_a_to_b
    have ht : (0 : ℚ) ≤ data_a i - np_min data_a :=
      sub_nonneg.mpr (np_min_le data_a i)
    nlinarith [mul_nonneg ht hslope]
  · unfold linear_scale_a_to_b
    have ht : data_a i - np_min data_a ≤ np_max data_a - np_min data_a :=
      sub_le_sub_right (le_np_max data_a i) _
    have hmul : (data_a i - np_min data_a) *
          ((np_max data_b - np_min data_b) / (np_max data_a - np_min data_a)) ≤
        (np_max data_a - np_min data_a) *
          ((np_max data_b - np_min data_b) / (np_max data_a - np_min data_a)) :=
      mul_le_mul_of_nonneg_right ht hslope
    have hcancel : (np_max data_a - np_min data_a) *
          ((np_max data_b - np_min data_b) / (np_max data_a - np_min data_a)) =
        np_max data_b - np_min data_b := by
      field_simp
    rw [hcancel] at hmul
    linarith

/-- Witness for C10: `data_a = (0, 2)`, `data_b = (1, 5)`. -/
theorem linear_scale_a_to_b_range_witness :
    np_max (![0, 2] : Fin 2 → ℚ) ≠ np_min (![0, 2] : Fin 2 → ℚ) ∧
      ∀ i, np_min (![1, 5] : Fin 2 → ℚ) ≤
          linear_scale_a_to_b (![0, 2] : Fin 2 → ℚ) (![1, 5] : Fin 2 → ℚ) i ∧
        linear_scale_a_to_b (![0, 2] : Fin 2 → ℚ) (![1, 5] : Fin 2 → ℚ) i ≤
          np_max (![1, 5] : Fin 2 → ℚ) := by
  have h : np_max (![0, 2] : Fin 2 → ℚ) ≠ np_min (![0, 2] : Fin 2 → ℚ) := by decide
  exact ⟨h, (linear_scale_a_to_b_range (![0, 2] : Fin 2 → ℚ)
    (![1, 5] : Fin 2 → ℚ) h).2.2.2⟩

/-! ### `BMFMCModel.calculate_extended_gammas`

```python
x_red = self.input_dim_red()
x_iter_test = x_red
self.gammas_ext_mc = np.empty((x_iter_test.shape[0], 0))
for counter in range(x_red.shape[1]):
    Y_LFS_mc_stdized = StandardScaler().fit_transform(self.Y_LFs_mc)
    corr_coef_unnorm = np.abs(np.dot(x_iter_test.T, Y_LFS_mc_stdized))
    ...plotting when counter == 0...
    select_bool = corr_coef_unnorm == np.max(corr_coef_unnorm)
    test_iter = np.dot(x_iter_test, select_bool)
    features_test = _linear_scale_a_to_b(test_iter, self.Y_LFs_mc)
    self.gammas_ext_mc = np.hstack((self.gammas_ext_mc, features_test))
```

Embedded for a single LF output column (`Y_LFs_mc` with one column): `x` is the
`N × D` reduced input `x_iter_test`, assigned once before the loop and never
reassigned inside it, and `y` is the LF output column.  Both array dimensions
are kept positive (`np.max` of an empty score array would raise). -/

/-- The column mean used by `StandardScaler().fit_transform`. -/
noncomputable def scaler_mean {N : ℕ} (y : Fin N → ℝ) : ℝ := (∑ i, y i) / N

/-- The population standard deviation used by `StandardScaler().fit_transform`. -/
noncomputable def scaler_std {N : ℕ} (y : Fin N → ℝ) : ℝ :=
  Real.sqrt ((∑ i, (y i - scaler_mean y) ^ 2) / N)

/-- `StandardScaler().fit_transform` on one column; sklearn substitutes `1` for
a zero standard deviation. -/
noncomputable def standardized {N : ℕ} (y : Fin N → ℝ) : Fin N → ℝ :=
  fun i => (y i - scaler_mean y) / (if scaler_std y = 0 then 1 else scaler_std y)

/-- `corr_coef_unnorm = np.abs(np.dot(x_iter_test.T, Y_LFS_mc_stdized))`:
the score of candidate dimension `d`. -/
noncomputable def corr_coef_unnorm {N D : ℕ} (x : Fin (N + 1) → Fin (D + 1) → ℝ)
    (y : Fin (N + 1) → ℝ) (d : Fin (D + 1)) : ℝ :=
  |∑ i, x i d * standardized y i|

/-- `np.max(corr_coef_unnorm)`. -/
noncomputable def max_corr_coef {N D : ℕ} (x : Fin (N + 1) → Fin (D + 1) → ℝ)
    (y : Fin (N + 1) → ℝ) : ℝ :=
  Finset.univ.sup' Finset.univ_nonempty (corr_coef_unnorm x y)

/-- `select_bool = corr_coef_unnorm == np.max(corr_coef_unnorm)`, as the
`0/1` matrix it acts as under `np.dot`. -/
noncomputable def select_bool {N D : ℕ} (x : Fin (N + 1) → Fin (D + 1) → ℝ)
    (y : Fin (N + 1) → ℝ) (d : Fin (D + 1)) : ℝ :=
  if corr_coef_unnorm x y d = max_corr_coef x y then 1 else 0

/-- `test_iter = np.dot(x_iter_test, select_bool)`. -/
noncomputable def test_iter {N D : ℕ} (x : Fin (N + 1) → Fin (D + 1) → ℝ)
    (y : Fin (N + 1) → ℝ) (i : Fin (N + 1)) : ℝ :=
  ∑ d, x i d * select_bool x y d

/-- The feature column `features_test` appended to `gammas_ext_mc` in loop
round `counter` of `calculate_extended_gammas`.  The loop body reads only
`x_iter_test` (assigned once before the loop) and `Y_LFs_mc`; `counter` is
used only for the plotting side channel. -/
noncomputable def gamma_round_col {N D : ℕ} (x : Fin (N + 1) → Fin (D + 1) → ℝ)
    (y : Fin (N + 1) → ℝ) (counter : ℕ) : Fin (N + 1) → ℝ :=
  linear_scale_a_to_b (test_iter x y) y

/-- The assembled `gammas_ext_mc` matrix: column `c` is the feature produced in
round `c` of the loop (the loop runs once per reduced-input dimension). -/
noncomputable def gammas_ext_mc {N D : ℕ} (x : Fin (N + 1) → Fin (D + 1) → ℝ)
    (y : Fin (N + 1) → ℝ) : Fin (N + 1) → Fin (D + 1) → ℝ :=
  fun i c => gamma_round_col x y c.val i

/-- C4 (what the code actually does): the loop body of
`calculate_extended_gammas` does not depend on the round counter — no selection
mask is kept and `x_iter_test` is never shrunk — so every round recomputes the
same scores, reselects the same highest-score dimension set, and appends the
identical feature column; all columns of `gammas_ext_mc` are equal.  This
refutes the claim that a dimension selected in an earlier round is never
selected again. -/
theorem calculate_extended_gammas_repeats_selection {N D : ℕ}
    (x : Fin (N + 1) → Fin (D + 1) → ℝ) (y : Fin (N + 1) → ℝ)
    (counter counter' : ℕ) (c c' : Fin (D + 1)) :
    gamma_round_col x y counter = gamma_round_col x y counter' ∧
      ∀ i, gammas_ext_mc x y i c = gammas_ext_mc x y i c' :=
  ⟨rfl, fun _ => rfl⟩

/-! ### Exceptions, matrices, and shared array helpers

Exceptions raised by the embedded methods are modelled by an explicit error
type; a method that can raise returns the raised exception (or `none`)
together with the state of the receiving object after the call — on an
exception the Python attributes that were not yet assigned keep their prior
values. -/

/-- The exception classes the embedded Python code raises. -/
inductive QueensError
  | valueError
  | ioError
  | notImplementedError
  | runtimeError
  | indexError
deriving DecidableEq

/-- A numpy 2-D array as a list of rows. -/
abbrev Mat : Type := List (List ℝ)

/-- `np.hstack` of two row-aligned matrices. -/
def hstack (a b : Mat) : Mat := List.zipWith (· ++ ·) a b

/-- Column selection `X[:, idx_vec]`. -/
noncomputable def select_cols (x : Mat) (idx : List ℕ) : Mat :=
  x.map fun row => idx.map fun j => row.getD j 0

/-- Leading-column selection `A[:, 0:k]`. -/
def take_cols (x : Mat) (k : ℕ) : Mat := x.map (List.take k)

/-- Row selection `A[indices, :]`. -/
def select_rows (x : Mat) (idx : List ℕ) : Mat := idx.map fun i => x.getD i []

/-- `np.tile(A, (n, 1))`: stack `A` vertically `n` times. -/
def tile_rows (a : Mat) (n : ℕ) : Mat := (List.replicate n a).flatten

/-- `np.min` of a list (the embedded methods only apply it to non-empty data). -/
noncomputable def np_min_list (l : List ℝ) : ℝ := l.foldr min (l.headD 0)

/-- `np.max` of a list. -/
noncomputable def np_max_list (l : List ℝ) : ℝ := l.foldr max (l.headD 0)

/-- Mean of a list, as `StandardScaler` computes it for one column. -/
noncomputable def list_mean (l : List ℝ) : ℝ := l.sum / l.length

/-- Population standard deviation of a list. -/
noncomputable def list_std (l : List ℝ) : ℝ :=
  Real.sqrt ((l.map fun x => (x - list_mean l) ^ 2).sum / l.length)

/-- `StandardScaler().fit_transform` on one column (a zero standard deviation
is replaced by `1`). -/
noncomputable def standardize_col (l : List ℝ) : List ℝ :=
  l.map fun x => (x - list_mean l) / (if list_std l = 0 then 1 else list_std l)

/-- Columnwise standardization of a matrix. -/
noncomputable def standardize_cols (x : Mat) : Mat :=
  (x.transpose.map standardize_col).transpose

/-! ### `BMFMCModel.set_feature_strategy`

```python
if self.settings_probab_mapping['features_config'] == "man_features":
    idx_vec = self.settings_probab_mapping['X_cols']
    self.gammas_ext_train = np.atleast_2d(self.X_train[:, idx_vec])
    self.gammas_ext_mc = np.atleast_2d(self.X_mc[:, idx_vec])
    self.Z_train = np.hstack([self.Y_LFs_train, self.gammas_ext_train])
    self.Z_mc = np.hstack([self.Y_LFs_mc, self.gammas_ext_mc])
elif self.settings_probab_mapping['features_config'] == "opt_features":
    if self.settings_probab_mapping['num_features'] < 1:
        raise ValueError(...)
    self.update_probabilistic_mapping_with_features()
elif self.settings_probab_mapping['features_config'] == "no_features":
    self.Z_train = self.Y_LFs_train
    self.Z_mc = self.Y_LFs_mc
else:
    raise ValueError("Feature space method specified in input file is unknown!")
```
-/

/-- The entries of `settings_probab_mapping` / `mf_approx_settings` that the
feature-strategy dispatch reads. -/
structure MappingSettings where
  features_config : String
  X_cols : List ℕ
  num_features : ℤ

/-- The attributes of `BMFMCModel` read or written by `set_feature_strategy`
and `update_probabilistic_mapping_with_features`. -/
structure BmfmcState where
  settings_probab_mapping : MappingSettings
  X_train : Mat
  X_mc : Mat
  Y_LFs_train : Mat
  Y_LFs_mc : Mat
  gammas_ext_train : Option Mat
  gammas_ext_mc : Option Mat
  training_indices : List ℕ
  Z_train : Option Mat
  Z_mc : Option Mat

/-- `BMFMCModel.update_probabilistic_mapping_with_features`: select the first
`num_features` columns of `gammas_ext_mc`, assemble `Z_mc` and take the
training rows.  (The subsequent re-fit and re-prediction calls on the
probabilistic-mapping interface mutate only the external interface object and
the prediction attributes, not the feature matrices.) -/
noncomputable def update_probabilistic_mapping_with_features (st : BmfmcState) :
    Option QueensError × BmfmcState :=
  let gamma_mc := take_cols (st.gammas_ext_mc.getD [])
    st.settings_probab_mapping.num_features.toNat
  let z_mc := hstack st.Y_LFs_mc gamma_mc
  let z_train := select_rows z_mc st.training_indices
  (none, { st with Z_mc := some z_mc, Z_train := some z_train })

/-- `BMFMCModel.set_feature_strategy`.  (The trailing
`update_model_variables(self.Y_LFs_train, self.Z_mc)` call of the source
mutates only the class-level `Model.variables` object, which is outside the
state embedded here; it is reached only on the non-raising paths.) -/
noncomputable def set_feature_strategy (st : BmfmcState) :
    Option QueensError × BmfmcState :=
  if st.settings_probab_mapping.features_config = "man_features" then
    let g_train := select_cols st.X_train st.settings_probab_mapping.X_cols
    let g_mc := select_cols st.X_mc st.settings_probab_mapping.X_cols
    (none, { st with gammas_ext_train := some g_train,
                     gammas_ext_mc := some g_mc,
                     Z_train := some (hstack st.Y_LFs_train g_train),
                     Z_mc := some (hstack st.Y_LFs_mc g_mc) })
  else if st.settings_probab_mapping.features_config = "opt_features" then
    if st.settings_probab_mapping.num_features < 1 then
      (some QueensError.valueError, st)
    else
      update_probabilistic_mapping_with_features st
  else if st.settings_probab_mapping.features_config = "no_features" then
    (none, { st with Z_train := some st.Y_LFs_train, Z_mc := some st.Y_LFs_mc })
  else
    (some QueensError.valueError, st)

/-! ### `BMFIAIterator._set_feature_strategy` and `BMFIAIterator.core_run`

`_set_feature_strategy` first tiles `coords_experimental_data` by the number
of training rows, then dispatches on `features_config`; `opt_features` with
`num_features < 1` raises `ValueError`, `opt_features` otherwise calls
`_update_probabilistic_mapping_with_features`, which raises
`NotImplementedError`; an unknown tag raises `IOError`.  `core_run` first
calls `eval_model` (which evaluates the LF model and then the HF model for
`X_train`) and only then `_set_feature_strategy`. -/

/-- The attributes of `BMFIAIterator` read or written by `core_run`,
`eval_model` and `_set_feature_strategy`.  `lf_response` and `hf_response`
stand for the (reshaped) outputs that the LF and HF sub-models return for
`X_train`. -/
structure BmfiaState where
  settings_probab_mapping : MappingSettings
  X_train : Mat
  Y_LF_train : Option Mat
  Y_HF_train : Option Mat
  Z_train : Option Mat
  coords_experimental_data : Mat
  time_vec : List ℝ
  y_obs_vec : List ℝ
  gammas_train : Option Mat
  lf_response : Mat
  hf_response : Mat

/-- The scaled and tiled `time_vec` used by the `time_features` branch. -/
noncomputable def scaled_time_vec (time_vec : List ℝ) (time_repeat : ℕ)
    (y_obs_vec : List ℝ) : List ℝ :=
  let t := time_vec.flatMap (List.replicate time_repeat)
  t.map fun x =>
    x / np_max_list t * (np_max_list y_obs_vec - np_min_list y_obs_vec) +
      np_min_list y_obs_vec

/-- `BMFIAIterator._set_feature_strategy`.  The `man_features` branch is
embedded for the single-LF-column case: the selected `X_train` columns are
standardized and appended to each LF output column (the numpy
`atleast_2d`/transpose juggling that packs these columns is not reproduced,
only the resulting column contents). -/
noncomputable def bmfia_set_feature_strategy (st : BmfiaState) :
    Option QueensError × BmfiaState :=
  let coords := tile_rows st.coords_experimental_data st.X_train.length
  let st := { st with coords_experimental_data := coords }
  if st.settings_probab_mapping.features_config = "man_features" then
    let gammas := standardize_cols
      (select_cols st.X_train st.settings_probab_mapping.X_cols)
    let z := hstack (st.Y_LF_train.getD []) gammas
    (none, { st with gammas_train := some gammas, Z_train := some z })
  else if st.settings_probab_mapping.features_config = "opt_features" then
    if st.settings_probab_mapping.num_features < 1 then
      (some QueensError.valueError, st)
    else
      (some QueensError.notImplementedError, st)
  else if st.settings_probab_mapping.features_config = "coord_features" then
    let z := hstack (st.Y_LF_train.getD []) st.coords_experimental_data
    (none, { st with Z_train := some z })
  else if st.settings_probab_mapping.features_config = "no_features" then
    (none, { st with Z_train := st.Y_LF_train })
  else if st.settings_probab_mapping.features_config = "time_features" then
    let time_repeat := st.coords_experimental_data.length / st.time_vec.length
    let t := scaled_time_vec st.time_vec time_repeat st.y_obs_vec
    let z := hstack (st.Y_LF_train.getD []) (t.map fun x => [x])
    (none, { st with time_vec := t, Z_train := some z })
  else
    (some QueensError.ioError, st)

/-- The observable model-evaluation events of a `core_run`, in the order they
happen, with any exception that ends the run. -/
inductive RunEvent
  | lf_model_eval
  | hf_model_eval
  | exception (e : QueensError)
deriving DecidableEq

/-- `BMFIAIterator.eval_model`: evaluate the LF model for `X_train`, then the
HF model for `X_train`, storing the reshaped responses. -/
noncomputable def eval_model (st : BmfiaState) : BmfiaState :=
  { st with Y_LF_train := some st.lf_response, Y_HF_train := some st.hf_response }

/-- `BMFIAIterator.core_run`: `eval_model` first, `_set_feature_strategy`
second; the trace records the two model evaluations and any exception raised
by the feature strategy. -/
noncomputable def core_run (st : BmfiaState) :
    List RunEvent × Option QueensError × BmfiaState :=
  let st1 := eval_model st
  let r := bmfia_set_feature_strategy st1
  ([RunEvent.lf_model_eval, RunEvent.hf_model_eval] ++
      (match r.1 with
        | some e => [RunEvent.exception e]
        | none => []),
    r.1, r.2)

/-- Whether a trace raises an exception before any model evaluation: its first
event is an exception. -/
def error_before_any_eval : List RunEvent → Bool
  | [] => false
  | RunEvent.exception _ :: _ => true
  | RunEvent.lf_model_eval :: _ => false
  | RunEvent.hf_model_eval :: _ => false

/-- A concrete `BMFIAIterator` state with one training point, used to
instantiate the theorems about `core_run` and `_set_feature_strategy`. -/
noncomputable def bmfia_state_ex (cfg : String) (k : ℤ) : BmfiaState :=
  { settings_probab_mapping := { features_config := cfg, X_cols := [0], num_features := k },
    X_train := [[1]], Y_LF_train := none, Y_HF_train := none, Z_train := none,
    coords_experimental_data := [[0]], time_vec := [1], y_obs_vec := [2],
    gammas_train := none, lf_response := [[2]], hf_response := [[3]] }

/-- A concrete `BMFMCModel` state used to instantiate the theorems about
`set_feature_strategy`. -/
noncomputable def bmfmc_state_ex (cfg : String) (k : ℤ) : BmfmcState :=
  { settings_probab_mapping := { features_config := cfg, X_cols := [0], num_features := k },
    X_train := [[1]], X_mc := [[1]], Y_LFs_train := [[2]], Y_LFs_mc := [[2]],
    gammas_ext_train := none, gammas_ext_mc := none, training_indices := [0],
    Z_train := none, Z_mc := none }

/-- C5 (counterexample to "before any model evaluation"): running
`BMFIAIterator.core_run` with `opt_features` and `num_features = 0` does raise
`ValueError`, but its trace evaluates the LF model and the HF model first —
the validation error is not raised before the model evaluations. -/
theorem core_run_opt_zero_counterexample :
    (core_run (bmfia_state_ex "opt_features" 0)).1 =
        [RunEvent.lf_model_eval, RunEvent.hf_model_eval,
          RunEvent.exception QueensError.valueError] ∧
      error_before_any_eval (core_run (bmfia_state_ex "opt_features" 0)).1 = false := by
  constructor <;> rfl

/-- C5 (amended): with `opt_features` and `num_features < 1` the pipeline
raises a validation error in both variants — `BMFMCModel.set_feature_strategy`
raises `ValueError` leaving the model state unmutated, and
`BMFIAIterator.core_run` raises `ValueError` from its feature-strategy step,
but only after `eval_model` has evaluated the LF and HF models for `X_train`. -/
theorem opt_features_invalid_num_features_raises (st : BmfiaState) (stM : BmfmcState)
    (h1 : st.settings_probab_mapping.features_config = "opt_features")
    (h2 : st.settings_probab_mapping.num_features < 1)
    (h3 : stM.settings_probab_mapping.features_config = "opt_features")
    (h4 : stM.settings_probab_mapping.num_features < 1) :
    (core_run st).1 =
        [RunEvent.lf_model_eval, RunEvent.hf_model_eval,
          RunEvent.exception QueensError.valueError] ∧
      set_feature_strategy stM = (some QueensError.valueError, stM) := by
  constructor
  · simp [core_run, bmfia_set_feature_strategy, eval_model, h1, h2]
  · simp [set_feature_strategy, h3, h4]

/-- Witness for C5 at `num_features = 0`. -/
theorem opt_features_invalid_num_features_raises_witness :
    (core_run (bmfia_state_ex "opt_features" 0)).1 =
        [RunEvent.lf_model_eval, RunEvent.hf_model_eval,
          RunEvent.exception QueensError.valueError] ∧
      set_feature_strategy (bmfmc_state_ex "opt_features" 0) =
        (some QueensError.valueError, bmfmc_state_ex "opt_features" 0) :=
  opt_features_invalid_num_features_raises (bmfia_state_ex "opt_features" 0)
    (bmfmc_state_ex "opt_features" 0) rfl (by decide) rfl (by decide)

/-- C6: with `features_config = "no_features"` the feature matrices are exactly
the LF outputs: `BMFMCModel.set_feature_strategy` assigns `Z_train = Y_LFs_train`
and `Z_mc = Y_LFs_mc` unchanged (and raises nothing), and
`BMFIAIterator._set_feature_strategy` assigns `Z_train = Y_LF_train` unchanged. -/
theorem no_features_identity (stM : BmfmcState) (st : BmfiaState)
    (h1 : stM.settings_probab_mapping.features_config = "no_features")
    (h2 : st.settings_probab_mapping.features_config = "no_features") :
    set_feature_strategy stM =
        (none, { stM with Z_train := some stM.Y_LFs_train,
                          Z_mc := some stM.Y_LFs_mc }) ∧
      (bmfia_set_feature_strategy st).1 = none ∧
      (bmfia_set_feature_strategy st).2.Z_train = st.Y_LF_train := by
  refine ⟨?_, ?_, ?_⟩ <;>
    simp [set_feature_strategy, bmfia_set_feature_strategy, h1, h2]

/-- Witness for C6 at a concrete state. -/
theorem no_features_identity_witness :
    set_feature_strategy (bmfmc_state_ex "no_features" 1) =
        (none, { bmfmc_state_ex "no_features" 1 with
          Z_train := some (bmfmc_state_ex "no_features" 1).Y_LFs_train,
          Z_mc := some (bmfmc_state_ex "no_features" 1).Y_LFs_mc }) ∧
      (bmfia_set_feature_strategy (bmfia_state_ex "no_features" 1)).1 = none ∧
      (bmfia_set_feature_strategy (bmfia_state_ex "no_features" 1)).2.Z_train =
        (bmfia_state_ex "no_features" 1).Y_LF_train := by
  have h := no_features_identity (bmfmc_state_ex "no_features" 1)
    (bmfia_state_ex "no_features" 1) rfl rfl
  exact h

/-- C8: an unknown `features_config` tag makes
`BMFMCModel.set_feature_strategy` raise `ValueError` with the whole model
state unmutated (in particular `Z_train` and `Z_mc` keep their prior values),
and makes `BMFIAIterator._set_feature_strategy` raise `IOError` with
`Z_train` keeping its prior value. -/
theorem unknown_features_config_raises (stM : BmfmcState) (st : BmfiaState)
    (h1 : stM.settings_probab_mapping.features_config ≠ "man_features")
    (h2 : stM.settings_probab_mapping.features_config ≠ "opt_features")
    (h3 : stM.settings_probab_mapping.features_config ≠ "no_features")
    (h4 : st.settings_probab_mapping.features_config ≠ "man_features")
    (h5 : st.settings_probab_mapping.features_config ≠ "opt_features")
    (h6 : st.settings_probab_mapping.features_config ≠ "coord_features")
    (h7 : st.settings_probab_mapping.features_config ≠ "no_features")
    (h8 : st.settings_probab_mapping.features_config ≠ "time_features") :
    set_feature_strategy stM = (some QueensError.valueError, stM) ∧
      (bmfia_set_feature_strategy st).1 = some QueensError.ioError ∧
      (bmfia_set_feature_strategy st).2.Z_train = st.Z_train := by
  refine ⟨?_, ?_, ?_⟩ <;>
    simp [set_feature_strategy, bmfia_set_feature_strategy,
      h1, h2, h3, h4, h5, h6, h7, h8]

/-- Witness for C8 with the tag `"bogus"`. -/
theorem unknown_features_config_raises_witness :
    set_feature_strategy (bmfmc_state_ex "bogus" 1) =
        (some QueensError.valueError, bmfmc_state_ex "bogus" 1) ∧
      (bmfia_set_feature_strategy (bmfia_state_ex "bogus" 1)).1 =
        some QueensError.ioError ∧
      (bmfia_set_feature_strategy (bmfia_state_ex "bogus" 1)).2.Z_train =
        (bmfia_state_ex "bogus" 1).Z_train :=
  unknown_features_config_raises (bmfmc_state_ex "bogus" 1) (bmfia_state_ex "bogus" 1)
    (by decide) (by decide) (by decide) (by decide) (by decide) (by decide)
    (by decide) (by decide)

/-! ### `BMFMCModel.get_hf_training_data`

```python
if self.X_train is None:
    raise ValueError(...)
if self.Y_HF_mc is not None:
    index_rows = [
        np.where(np.all(self.X_mc == self.X_train[i, :], axis=1))[0][0]
        for i, _ in enumerate(self.X_train[:, 0])
    ]
    self.Y_HF_train = np.atleast_2d(
        np.asarray([self.Y_HF_mc[index] for index in index_rows])
    ).T
else:
    raise NotImplementedError(...)
```
-/

open Classical in
/-- The first index `j` with `X_mc[j] == target` (exact floating-point row
equality), i.e. `np.where(np.all(X_mc == target, axis=1))[0][0]` when a match
exists. -/
noncomputable def first_match_idx : Mat → List ℝ → Option ℕ
  | [], _ => none
  | r :: rest, target =>
    if r = target then some 0 else (first_match_idx rest target).map (· + 1)

/-- The `index_rows` list comprehension; a training row with no exact match in
`X_mc` makes the `[0][0]` lookup raise `IndexError`. -/
noncomputable def index_rows (X_mc : Mat) : Mat → Except QueensError (List ℕ)
  | [] => Except.ok []
  | r :: rest =>
    match first_match_idx X_mc r with
    | some j =>
      match index_rows X_mc rest with
      | Except.ok js => Except.ok (j :: js)
      | Except.error e => Except.error e
    | none => Except.error QueensError.indexError

/-- `BMFMCModel.get_hf_training_data`: the computed `Y_HF_train` column (or
the exception raised). -/
noncomputable def get_hf_training_data (X_mc : Mat) (Y_HF_mc : Option (List ℝ))
    (X_train : Option Mat) : Except QueensError (List ℝ) :=
  match X_train with
  | none => Except.error QueensError.valueError
  | some xt =>
    match Y_HF_mc with
    | some y_mc => (index_rows X_mc xt).map fun js => js.map fun j => y_mc.getD j 0
    | none => Except.error QueensError.notImplementedError

theorem first_match_idx_of_mem {rows : Mat} {target : List ℝ} (h : target ∈ rows) :
    ∃ j, first_match_idx rows target = some j := by
  induction rows with
  | nil => simp at h
  | cons r rest ih =>
    by_cases hr : r = target
    · exact ⟨0, by simp [first_match_idx, hr]⟩
    · have : target ∈ rest := by
        rcases List.mem_cons.mp h with h0 | h0
        · exact absurd h0.symm hr
        · exact h0
      obtain ⟨j, hj⟩ := ih this
      exact ⟨j + 1, by simp [first_match_idx, hr, hj]⟩

theorem first_match_idx_spec {rows : Mat} {target : List ℝ} {j : ℕ}
    (h : first_match_idx rows target = some j) :
    j < rows.length ∧ rows.getD j [] = target ∧
      ∀ j', j' < j → rows.getD j' [] ≠ target := by
  induction rows generalizing j with
  | nil => simp [first_match_idx] at h
  | cons r rest ih =>
    by_cases hr : r = target
    · simp [first_match_idx, hr] at h
      subst h
      exact ⟨Nat.succ_pos _, by simpa using hr, by omega⟩
    · simp [first_match_idx, hr] at h
      obtain ⟨j0, hj0, rfl⟩ := h
      obtain ⟨hlen, hget, hbefore⟩ := ih hj0
      refine ⟨Nat.succ_lt_succ hlen, by simpa using hget, ?_⟩
      intro j' hj'
      cases j' with
      | zero => simpa using hr
      | succ k =>
        have : k < j0 := Nat.lt_of_succ_lt_succ hj'
        simpa using hbefore k this

theorem index_rows_of_all_match {X_mc : Mat} {xt : Mat}
    (h : ∀ r ∈ xt, ∃ j, first_match_idx X_mc r = some j) :
    ∃ js, index_rows X_mc xt = Except.ok js ∧ js.length = xt.length ∧
      ∀ i, i < xt.length →
        first_match_idx X_mc (xt.getD i []) = some (js.getD i 0) := by
  induction xt with
  | nil => exact ⟨[], rfl, rfl, fun i hi => by simp at hi⟩
  | cons r rest ih =>
    obtain ⟨j, hj⟩ := h r (List.mem_cons_self r rest)
    obtain ⟨js, hjs, hlen, hval⟩ := ih fun r' hr' => h r' (List.mem_cons_of_mem r hr')
    refine ⟨j :: js, ?_, by simp [hlen], ?_⟩
    · simp only [index_rows, hj, hjs]
    · intro i hi
      cases i with
      | zero => simpa using hj
      | succ k =>
        have : k < rest.length := by simpa using hi
        simpa using hval k this

/-- C7: with an HF Monte-Carlo benchmark available, `get_hf_training_data`
performs an exact-match lookup: when every row of `X_train` occurs verbatim in
`X_mc` the lookup succeeds and the `i`-th entry of `Y_HF_train` is `Y_HF_mc`
at the first index `j` with `X_mc[j] == X_train[i]`; and with no HF benchmark
the method raises `NotImplementedError` instead of auto-running the HF model. -/
theorem get_hf_training_data_exact_lookup (X_mc : Mat) (y_mc : List ℝ) (xt : Mat)
    (h : ∀ r ∈ xt, r ∈ X_mc) :
    (∃ ys, get_hf_training_data X_mc (some y_mc) (some xt) = Except.ok ys ∧
      ys.length = xt.length ∧
      ∀ i, i < xt.length → ∃ j, j < X_mc.length ∧
        X_mc.getD j [] = xt.getD i [] ∧
        (∀ j', j' < j → X_mc.getD j' [] ≠ xt.getD i []) ∧
        ys.getD i 0 = y_mc.getD j 0) ∧
      get_hf_training_data X_mc none (some xt) =
        Except.error QueensError.notImplementedError := by
  refine ⟨?_, rfl⟩
  obtain ⟨js, hjs, hlen, hval⟩ :=
    index_rows_of_all_match (fun r hr => first_match_idx_of_mem (h r hr))
  refine ⟨js.map fun j => y_mc.getD j 0, ?_, by simp [hlen], ?_⟩
  · simp [get_hf_training_data, hjs, Except.map]
  · intro i hi
    refine ⟨js.getD i 0, ?_⟩
    obtain ⟨hjlt, hjget, hjfirst⟩ := first_match_idx_spec (hval i hi)
    have hi' : i < js.length := hlen ▸ hi
    refine ⟨hjlt, hjget, hjfirst, ?_⟩
    rw [List.getD_eq_getElem?_getD, List.getElem?_map,
      List.getElem?_eq_getElem hi']
    simp [List.getD_eq_getElem?_getD, List.getElem?_eq_getElem hi']

/-- Witness for C7: `X_mc = [[1],[2]]`, `Y_HF_mc = [10, 20]`,
`X_train = [[2]]`. -/
theorem get_hf_training_data_exact_lookup_witness :
    (∀ r ∈ ([[2]] : Mat), r ∈ ([[1], [2]] : Mat)) ∧
      (∃ ys, get_hf_training_data [[1], [2]] (some [10, 20]) (some [[2]]) =
          Except.ok ys ∧ ys.length = ([[2]] : Mat).length ∧
        ∀ i, i < ([[2]] : Mat).length → ∃ j, j < ([[1], [2]] : Mat).length ∧
          ([[1], [2]] : Mat).getD j [] = ([[2]] : Mat).getD i [] ∧
          (∀ j', j' < j → ([[1], [2]] : Mat).getD j' [] ≠ ([[2]] : Mat).getD i []) ∧
          ys.getD i 0 = ([10, 20] : List ℝ).getD j 0) := by
  have h : ∀ r ∈ ([[2]] : Mat), r ∈ ([[1], [2]] : Mat) := by
    intro r hr
    simp only [List.mem_singleton] at hr
    subst hr
    simp
  exact ⟨h, (get_hf_training_data_exact_lookup [[1], [2]] [10, 20] [[2]] h).1⟩

/-! ### `BMFMCModel.eval_surrogate_accuracy_cv`, `compute_error`

```python
if not self.interface.is_initiliazed():
    raise RuntimeError("Cannot compute accuracy of an uninitialized model")
response_cv = self.interface.cross_validate(Z, Y_HF, k_fold)
y_pred = np.reshape(np.array(response_cv), (-1, 1))
error_info = compute_error_measures(Y_HF, y_pred, measures)
```
-/

/-- `compute_error(y_act, y_pred, measure)`; an unknown measure raises
`NotImplementedError`. -/
noncomputable def compute_error (y_act y_pred : List ℝ) (measure : String) :
    Except QueensError ℝ :=
  let diff := List.zipWith (fun a b => a - b) y_act y_pred
  if measure = "sum_squared" then Except.ok (diff.map fun d => d ^ 2).sum
  else if measure = "mean_squared" then
    Except.ok ((diff.map fun d => d ^ 2).sum / diff.length)
  else if measure = "root_mean_squared" then
    Except.ok (Real.sqrt ((diff.map fun d => d ^ 2).sum / diff.length))
  else if measure = "sum_abs" then Except.ok (diff.map fun d => |d|).sum
  else if measure = "mean_abs" then
    Except.ok ((diff.map fun d => |d|).sum / diff.length)
  else if measure = "abs_max" then Except.ok (np_max_list (diff.map fun d => |d|))
  else Except.error QueensError.notImplementedError

/-- `compute_error_measures(y_act, y_pred, measures)`. -/
noncomputable def compute_error_measures (y_act y_pred : List ℝ) :
    List String → Except QueensError (List (String × ℝ))
  | [] => Except.ok []
  | m :: rest =>
    match compute_error y_act y_pred m with
    | Except.ok e =>
      match compute_error_measures y_act y_pred rest with
      | Except.ok es => Except.ok ((m, e) :: es)
      | Except.error err => Except.error err
    | Except.error err => Except.error err

/-- The probabilistic-mapping interface as `eval_surrogate_accuracy_cv` sees
it.  Modelled from the spec: the class `BmfmcInterface`
(`pqueens/interfaces/bmfmc_interface.py`) is not among the staged sources;
per the spec's mapping lifecycle, `is_initiliazed` reports whether `build` has
been called, and `cross_validate` returns the k-fold out-of-sample
predictions of the regression backend. -/
structure BmfmcInterface where
  initialized : Bool
  cross_validate_response : Mat → Mat → ℕ → List ℝ

/-- `BMFMCModel.eval_surrogate_accuracy_cv`. -/
noncomputable def eval_surrogate_accuracy_cv (iface : BmfmcInterface)
    (Z Y_HF : Mat) (k_fold : ℕ) (measures : List String) :
    Except QueensError (List (String × ℝ)) :=
  if iface.initialized = false then Except.error QueensError.runtimeError
  else
    compute_error_measures Y_HF.flatten
      (iface.cross_validate_response Z Y_HF k_fold) measures

/-- C9: requesting cross-validation accuracy on an unbuilt probabilistic
mapping raises `RuntimeError` instead of returning predictions. -/
theorem eval_surrogate_accuracy_cv_uninitialized (iface : BmfmcInterface)
    (Z Y_HF : Mat) (k_fold : ℕ) (measures : List String)
    (h : iface.initialized = false) :
    eval_surrogate_accuracy_cv iface Z Y_HF k_fold measures =
      Except.error QueensError.runtimeError := by
  simp [eval_surrogate_accuracy_cv, h]

/-- Witness for C9 with a concrete unbuilt interface. -/
theorem eval_surrogate_accuracy_cv_uninitialized_witness :
    eval_surrogate_accuracy_cv ⟨false, fun _ _ _ => []⟩ [[0]] [[1]] 5
        ["mean_squared"] = Except.error QueensError.runtimeError :=
  eval_surrogate_accuracy_cv_uninitialized ⟨false, fun _ _ _ => []⟩ [[0]] [[1]] 5
    ["mean_squared"] rfl

end Queens
